import Mathlib

/-!
Verification of the topic-discovery, classification and payload-decoding
logic of the `selfmon` Home Assistant integration.

Python strings are embedded as `List Char`; each Python string operation
used by the source (`startswith`, `in`, `split`, `replace(old, "", 1)`,
`strip`, `rstrip`, `isdigit`, `int`, `float`) is given a faithful Lean
counterpart.  The discovery-time classification is the MQTT message
callback `message_received` of `config_flow.async_step_discover`, reachable
only through the subscription filters built in the same function, so the
spec-level `classify` is embedded as that composition.
-/

namespace Selfmon

/-- Python strings are embedded as lists of characters. -/
abbrev Str := List Char

/-! ## Constants, from `const.py` -/

def SENSOR_TYPE_ZONE_INPUT : Str := "zone_input".data

def SENSOR_TYPE_OUTPUT : Str := "output".data

def SENSOR_TYPE_TEMPERATURE : Str := "temperature".data

def SENSOR_TYPE_VKP_LINE : Str := "vkp_line".data

def SENSOR_TYPE_VERSION : Str := "version".data

def TOPIC_PRIO_INPUTS : Str := "prio/inputs/read".data

def TOPIC_VRIO_INPUTS : Str := "vrio/inputs/read".data

def TOPIC_PRIO_OUTPUTS : Str := "prio/outputs".data

def TOPIC_VRIO_OUTPUTS : Str := "vrio/outputs".data

def TOPIC_TEMPERATURE : Str := "temperature".data

def TOPIC_VKP_LINE1 : Str := "vkp/display/line1".data

def TOPIC_VKP_LINE2 : Str := "vkp/display/line2".data

def TOPIC_VERSION : Str := "version".data

def PAYLOAD_OPEN : Str := "OPEN".data

def PAYLOAD_CLOSED : Str := "CLOSED".data

def PAYLOAD_ON : Str := "ON".data

def PAYLOAD_OFF : Str := "OFF".data

/-! ## Python string operations -/

/-- Python `sub in s` (substring containment). -/
def strContains (sub : Str) : Str → Bool
  | [] => sub.isPrefixOf []
  | c :: t => sub.isPrefixOf (c :: t) || strContains sub t

/-- Python `s.replace(old, "", 1)`: remove the first occurrence of `old`
(if any) from `s`. -/
def replFirst (old : Str) : Str → Str
  | [] => []
  | c :: t => if old.isPrefixOf (c :: t) then (c :: t).drop old.length
              else c :: replFirst old t

/-- Python `s.split(sep)` for a one-character separator; always returns a
non-empty list of (possibly empty) groups. -/
def pySplit (sep : Char) : Str → List Str
  | [] => [[]]
  | c :: t =>
    if c == sep then [] :: pySplit sep t
    else match pySplit sep t with
      | [] => [[c]]
      | g :: gs => (c :: g) :: gs

/-- Python `s.split("/")[-1]` (the split list is never empty). -/
def lastSegment (s : Str) : Str := (pySplit '/' s).getLastD []

/-- Python `s.isdigit()` restricted to ASCII: non-empty and all decimal
digits. -/
def pyIsDigit (s : Str) : Bool := !s.isEmpty && s.all Char.isDigit

/-- Python `int(s)` on a decimal-digit string. -/
def pyInt (s : Str) : Nat := s.foldl (fun a c => 10 * a + (c.toNat - 48)) 0

/-- Python `s.strip()`: drop whitespace from both ends. -/
def pyStrip (s : Str) : Str :=
  ((s.dropWhile Char.isWhitespace).reverse.dropWhile Char.isWhitespace).reverse

/-- Python `s.rstrip("/")`: drop trailing slashes. -/
def pyRstripSlashes (s : Str) : Str :=
  (s.reverse.dropWhile (· == '/')).reverse

/-- Python `s.lower()` restricted to ASCII. -/
def pyLower (s : Str) : Str := s.map Char.toLower

/-! ## Data model

A discovered-sensor dictionary entry, as stored by the discovery callback
(`config_flow.async_step_discover.message_received`).  The `is_prio` key is
only present for the zone-input and output branches, hence `Option Bool`.
-/

structure SensorDescriptor where
  sensor_type : Str
  zone_id : Str
  name : Str
  device_class : Str
  enabled : Bool
  topic : Str
  is_prio : Option Bool
  auto_enabled : Bool
deriving Repr, DecidableEq

/-! ## Classifier helpers, from `config_flow.py` -/

/-- Translated from `config_flow.get_default_device_class` (lines 48-60).
The `topic` parameter is unused by the source as well. -/
def get_default_device_class (zone_id : Str) (topic : Str) : Str :=
  let zone_num : Nat := if pyIsDigit zone_id then pyInt zone_id else 0
  let last_digit := zone_num % 10
  if last_digit = 1 ∨ last_digit = 7 then "door".data
  else if last_digit = 2 ∨ last_digit = 8 then "motion".data
  else if last_digit = 4 ∨ last_digit = 6 then "smoke".data
  else if last_digit = 3 ∨ last_digit = 5 then "safety".data
  else "None".data

/-- Translated from `config_flow.get_default_sensor_name` (lines 63-77). -/
def get_default_sensor_name (sensor_type sensor_id : Str) : Str :=
  if sensor_type == SENSOR_TYPE_ZONE_INPUT then "Alarm - Zone ".data ++ sensor_id
  else if sensor_type == SENSOR_TYPE_OUTPUT then "Alarm - Output ".data ++ sensor_id
  else if sensor_type == SENSOR_TYPE_TEMPERATURE then "Temperature Sensor".data
  else if sensor_type == SENSOR_TYPE_VKP_LINE then
    if strContains "line1".data (pyLower sensor_id) then "Keypad Line 1".data
    else "Keypad Line 2".data
  else if sensor_type == SENSOR_TYPE_VERSION then "Module Version".data
  else "Sensor ".data ++ sensor_id

/-- Translated from the discovery callback `message_received` in
`config_flow.async_step_discover` (lines 252-318): classify one received
topic and return the dictionary entry it stores (keyed by the full topic),
or `none` when the topic matches no rule. -/
def message_received (module_path : Str) (topic : Str) : Option SensorDescriptor :=
  let relative_topic := replFirst (module_path ++ "/".data) topic
  if TOPIC_PRIO_INPUTS.isPrefixOf relative_topic
      || TOPIC_VRIO_INPUTS.isPrefixOf relative_topic then
    let zone_id := lastSegment relative_topic
    some { sensor_type := SENSOR_TYPE_ZONE_INPUT
           zone_id := zone_id
           name := get_default_sensor_name SENSOR_TYPE_ZONE_INPUT zone_id
           device_class := get_default_device_class zone_id topic
           enabled := true
           topic := topic
           is_prio := some (strContains TOPIC_PRIO_INPUTS relative_topic)
           auto_enabled := false }
  else if TOPIC_PRIO_OUTPUTS.isPrefixOf relative_topic
      || TOPIC_VRIO_OUTPUTS.isPrefixOf relative_topic then
    let output_id := lastSegment relative_topic
    some { sensor_type := SENSOR_TYPE_OUTPUT
           zone_id := output_id
           name := get_default_sensor_name SENSOR_TYPE_OUTPUT output_id
           device_class := "None".data
           enabled := true
           topic := topic
           is_prio := some (strContains TOPIC_PRIO_OUTPUTS relative_topic)
           auto_enabled := false }
  else if relative_topic == TOPIC_TEMPERATURE then
    some { sensor_type := SENSOR_TYPE_TEMPERATURE
           zone_id := "temperature".data
           name := get_default_sensor_name SENSOR_TYPE_TEMPERATURE []
           device_class := "temperature".data
           enabled := true
           topic := topic
           is_prio := none
           auto_enabled := true }
  else if relative_topic == TOPIC_VKP_LINE1 || relative_topic == TOPIC_VKP_LINE2 then
    let line_id := if strContains "line1".data relative_topic
                   then "line1".data else "line2".data
    some { sensor_type := SENSOR_TYPE_VKP_LINE
           zone_id := line_id
           name := get_default_sensor_name SENSOR_TYPE_VKP_LINE line_id
           device_class := "None".data
           enabled := true
           topic := topic
           is_prio := none
           auto_enabled := true }
  else if relative_topic == TOPIC_VERSION then
    some { sensor_type := SENSOR_TYPE_VERSION
           zone_id := "version".data
           name := get_default_sensor_name SENSOR_TYPE_VERSION []
           device_class := "None".data
           enabled := true
           topic := topic
           is_prio := none
           auto_enabled := true }
  else none

/-! ## Discovery-session subscriptions -/

/-- A subscription topic filter: either a literal topic or a stem followed
by the MQTT multi-level wildcard, `stem/#`. These are the only two filter
shapes `async_step_discover` builds. -/
inductive Pattern where
  | exact (t : Str)
  | multi (stem : Str)
deriving Repr, DecidableEq

/-- MQTT topic-filter matching for the filter shapes above, modelled from
the spec (external interface, common MQTT semantics): `stem/#` matches
`stem` itself and every topic below `stem/`. -/
def Pattern.matches : Pattern → Str → Bool
  | .exact t, topic => topic == t
  | .multi stem, topic => topic == stem || (stem ++ "/".data).isPrefixOf topic

/-- Translated from `async_step_discover` (lines 235-248): the
`topics_to_subscribe` list, with the two outputs wildcards appended only
when `enable_outputs` is set. -/
def topics_to_subscribe (module_path : Str) (enable_outputs : Bool) : List Pattern :=
  [ Pattern.multi (module_path ++ "/".data ++ TOPIC_PRIO_INPUTS)
  , Pattern.multi (module_path ++ "/".data ++ TOPIC_VRIO_INPUTS)
  , Pattern.exact (module_path ++ "/".data ++ TOPIC_TEMPERATURE)
  , Pattern.exact (module_path ++ "/".data ++ TOPIC_VKP_LINE1)
  , Pattern.exact (module_path ++ "/".data ++ TOPIC_VKP_LINE2)
  , Pattern.exact (module_path ++ "/".data ++ TOPIC_VERSION) ]
  ++ (if enable_outputs then
      [ Pattern.multi (module_path ++ "/".data ++ TOPIC_PRIO_OUTPUTS)
      , Pattern.multi (module_path ++ "/".data ++ TOPIC_VRIO_OUTPUTS) ]
      else [])

/-- The spec's `classify(moduleBase, fullTopic, isOutputsEnabled)`: during
a discovery session a topic reaches `message_received` exactly when it
matches one of the session's subscription filters (which is also where the
outputs gate lives in the source), so classification is that composition. -/
def classify (module_base full_topic : Str) (is_outputs_enabled : Bool) :
    Option SensorDescriptor :=
  if (topics_to_subscribe module_base is_outputs_enabled).any
      (fun p => Pattern.matches p full_topic)
  then message_received module_base full_topic
  else none

/-! ## Discovery-session exit paths -/

inductive SessionExit where
  | normal
  | cancelled
deriving Repr, DecidableEq

/-- Translated from `async_step_discover` (lines 250-332): the step collects
one unsubscribe handle per subscribed filter in `unsubscribes`, waits out the
discovery window with `asyncio.sleep`, then runs `for unsub in unsubscribes:
unsub()`.  There is no try/finally around the sleep, so a cancellation (or
any exception) raised while the window is open propagates out of the step
and the unsubscribe loop never runs.  This function returns the
subscriptions still active when the step exits by the given path. -/
def discover_active_subscriptions (module_path : Str) (enable_outputs : Bool) :
    SessionExit → List Pattern
  | .normal =>
    (topics_to_subscribe module_path enable_outputs).foldl
      (fun active u => active.erase u) (topics_to_subscribe module_path enable_outputs)
  | .cancelled => topics_to_subscribe module_path enable_outputs

/-! ## Manual module-path entry -/

inductive ManualEntryResult where
  | accepted (module_path : Str)
  | invalid_path
deriving Repr, DecidableEq

/-- Character class of the regex `[a-fA-F0-9]`. -/
def isHexDigitChar (c : Char) : Bool :=
  c.isDigit || ('a' ≤ c && c ≤ 'f') || ('A' ≤ c && c ≤ 'F')

/-- Translated from the anchored regex `^selfmon/vmod\.[a-fA-F0-9]+$` used
by `async_step_manual_entry` (line 194), with Python `re` semantics for
`$`: it matches at the end of the string or just before a newline that is
the last character, so one trailing newline after the hex digits is also
accepted by the source. -/
def matches_module_path_re (s : Str) : Bool :=
  "selfmon/vmod.".data.isPrefixOf s &&
    (let t := s.drop "selfmon/vmod.".data.length
     let body := if t.getLast? == some '\n' then t.dropLast else t
     !body.isEmpty && body.all isHexDigitChar)

/-- Translated from `config_flow.async_step_manual_entry` (lines 185-209):
the submitted value is stripped of surrounding whitespace and trailing
slashes; if the result fails the module-path regex the form is shown again
with an `invalid_path` error, otherwise the path is accepted and the flow
proceeds. -/
def async_step_manual_entry (input : Str) : ManualEntryResult :=
  let module_path := pyRstripSlashes (pyStrip input)
  if matches_module_path_re module_path then .accepted module_path
  else .invalid_path

/-! ## Runtime payload decoders -/

/-- Translated from the MQTT callback in
`binary_sensor.SelfMonZoneSensor.async_added_to_hass` (lines 124-137):
`"OPEN"` turns the zone on, `"CLOSED"` turns it off, anything else logs a
warning and returns without writing state.  Returns the new `_attr_is_on`
and whether a state update was published. -/
def zone_message_received (is_on : Option Bool) (payload : Str) :
    Option Bool × Bool :=
  if payload == PAYLOAD_OPEN then (some true, true)
  else if payload == PAYLOAD_CLOSED then (some false, true)
  else (is_on, false)

/-- The zone states after each payload of a sequence, starting from the
given `_attr_is_on` (initially `none` in the source). -/
def run_zone : Option Bool → List Str → List (Option Bool)
  | _, [] => []
  | st, p :: ps =>
    let st' := (zone_message_received st p).1
    st' :: run_zone st' ps

/-- Modelled from Python `float()` restricted to the plain decimal literals
this integration's temperature payloads use: optional sign, integer digits,
optional fractional part (exponents, infinities and nan are not modelled);
values are represented exactly as rationals.  Returns `none` exactly where
Python raises `ValueError`. -/
def pyFloat? (s : Str) : Option ℚ :=
  let signed : ℚ × Str :=
    match s with
    | '-' :: r => (-1, r)
    | '+' :: r => (1, r)
    | r => (1, r)
  let int_span := signed.2.span Char.isDigit
  match int_span.2 with
  | [] =>
    if int_span.1.isEmpty then none
    else some (signed.1 * (pyInt int_span.1 : ℚ))
  | '.' :: frac_rest =>
    let frac_span := frac_rest.span Char.isDigit
    if frac_span.2.isEmpty && !(int_span.1.isEmpty && frac_span.1.isEmpty) then
      some (signed.1 * ((pyInt int_span.1 : ℚ) +
        (pyInt frac_span.1 : ℚ) / (10 : ℚ) ^ frac_span.1.length))
    else none
  | _ => none

/-- Translated from the MQTT callback in
`sensor.SelfMonTemperatureSensor.async_added_to_hass` (lines 193-208):
`float(payload)` becomes the new native value and a state update is
published; a `ValueError` logs a warning and leaves the prior value with no
update. -/
def temperature_message_received (native_value : Option ℚ) (payload : Str) :
    Option ℚ × Bool :=
  match pyFloat? payload with
  | some v => (some v, true)
  | none => (native_value, false)

/-- The temperature states after each payload of a sequence, starting from
the given native value (initially `none` in the source). -/
def run_temperature : Option ℚ → List Str → List (Option ℚ)
  | _, [] => []
  | st, p :: ps =>
    let st' := (temperature_message_received st p).1
    st' :: run_temperature st' ps

/-! ## Entity unique ids -/

/-- Translated from `binary_sensor.SelfMonZoneSensor.__init__` (lines
97-101): the unique id is `selfmon_<moduleId>_zone_<zoneId>` where
`moduleId` is the module path's suffix after the last `"."` (or the whole
path when it has no dot). -/
def zone_unique_id (module_path zone_id : Str) : Str :=
  let module_id := if strContains ".".data module_path
                   then (pySplit '.' module_path).getLastD []
                   else module_path
  "selfmon_".data ++ module_id ++ "_zone_".data ++ zone_id

/-! ## Spec-side device-class table -/

/-- Modelled from the spec's zone device-class heuristic, for comparison
with `get_default_device_class`: a pure function of `zoneNum mod 10`,
digits 1,7 map to door, 2,8 to motion, 4,6 to smoke, 3,5 to safety and
0,9 to none. -/
def specDeviceClass (zone_num : Nat) : Str :=
  match zone_num % 10 with
  | 1 | 7 => "door".data
  | 2 | 8 => "motion".data
  | 4 | 6 => "smoke".data
  | 3 | 5 => "safety".data
  | _ => "None".data

/-! ## General lemmas about the string operations -/

theorem isPrefixOf_self_append (a x : Str) : a.isPrefixOf (a ++ x) = true := by
  rw [List.isPrefixOf_iff_prefix]
  exact List.prefix_append a x

theorem isPrefixOf_append_left (p a b : Str) :
    (p ++ a).isPrefixOf (p ++ b) = a.isPrefixOf b := by
  rw [Bool.eq_iff_iff, List.isPrefixOf_iff_prefix, List.isPrefixOf_iff_prefix]
  exact List.prefix_append_right_inj p

theorem beq_append_left (p a b : Str) : ((p ++ a) == (p ++ b)) = (a == b) := by
  rw [Bool.eq_iff_iff, beq_iff_eq, beq_iff_eq]
  exact ⟨List.append_cancel_left, fun h => by rw [h]⟩

theorem isPrefixOf_of_append_isPrefixOf (p q t : Str)
    (h : (p ++ q).isPrefixOf t = true) : p.isPrefixOf t = true := by
  rw [List.isPrefixOf_iff_prefix] at h ⊢
  exact (List.prefix_append p q).trans h

theorem isPrefixOf_eq_false_of_slash (pat x : Str) (hp : '/' ∈ pat)
    (hx : '/' ∉ x) : pat.isPrefixOf x = false := by
  rw [Bool.eq_false_iff]
  intro h
  exact hx (((List.isPrefixOf_iff_prefix).1 h).subset hp)

theorem strContains_eq_false_of_slash (pat : Str) (hp : '/' ∈ pat) :
    ∀ x : Str, '/' ∉ x → strContains pat x = false := by
  intro x
  induction x with
  | nil =>
    intro _
    cases pat with
    | nil => cases hp
    | cons c t => rfl
  | cons c t ih =>
    intro hx
    have hc : '/' ∉ t := fun h => hx (List.mem_cons_of_mem c h)
    simp only [strContains, Bool.or_eq_false_iff]
    exact ⟨isPrefixOf_eq_false_of_slash pat (c :: t) hp hx, ih hc⟩

theorem replFirst_append (p rest : Str) : replFirst p (p ++ rest) = rest := by
  cases p with
  | nil =>
    cases rest with
    | nil => rfl
    | cons c t => simp [replFirst, List.isPrefixOf]
  | cons c p' =>
    have h : (c :: p').isPrefixOf ((c :: p') ++ rest) = true :=
      isPrefixOf_self_append (c :: p') rest
    rw [List.cons_append] at h ⊢
    simp only [replFirst, List.append_eq]
    rw [← List.cons_append] at h ⊢
    rw [if_pos h]
    exact List.drop_left _ _

theorem pySplit_ne_nil (sep : Char) (s : Str) : pySplit sep s ≠ [] := by
  cases s with
  | nil => simp [pySplit]
  | cons c t =>
    simp only [pySplit]
    split
    · simp
    · split
      · simp
      · simp

theorem getLastD_irrel {α : Type} (l : List α) (h : l ≠ []) (d d' : α) :
    l.getLastD d = l.getLastD d' := by
  cases l with
  | nil => exact absurd rfl h
  | cons a t => rw [List.getLastD_cons, List.getLastD_cons]

theorem pySplit_no_sep (sep : Char) (s : Str) (h : sep ∉ s) :
    pySplit sep s = [s] := by
  induction s with
  | nil => rfl
  | cons c t ih =>
    have hct : c ≠ sep := fun hc => h (hc ▸ List.mem_cons_self c t)
    have ht : sep ∉ t := fun hm => h (List.mem_cons_of_mem c hm)
    simp only [pySplit, beq_iff_eq, if_neg hct, ih ht]

theorem pySplit_long (sep : Char) (s : Str) (h : sep ∈ s) :
    ∃ g gs, pySplit sep s = g :: gs ∧ gs ≠ [] := by
  induction s with
  | nil => cases h
  | cons c t ih =>
    by_cases hc : c = sep
    · subst hc
      exact ⟨[], pySplit c t, by simp [pySplit], pySplit_ne_nil c t⟩
    · have ht : sep ∈ t := by
        rcases List.mem_cons.1 h with h1 | h1
        · exact absurd h1.symm hc
        · exact h1
      obtain ⟨g, gs, hsp, hne⟩ := ih ht
      refine ⟨c :: g, gs, ?_, hne⟩
      simp only [pySplit, beq_iff_eq, if_neg hc, hsp]

theorem lastSegment_append_sep (l1 l2 : Str) (h : '/' ∉ l2) :
    lastSegment (l1 ++ '/' :: l2) = l2 := by
  induction l1 with
  | nil =>
    show (pySplit '/' ('/' :: l2)).getLastD [] = l2
    simp [pySplit, pySplit_no_sep '/' l2 h]
  | cons c t ih =>
    show (pySplit '/' (c :: (t ++ '/' :: l2))).getLastD [] = l2
    by_cases hc : c = '/'
    · subst hc
      simp only [pySplit, List.append_eq, beq_self_eq_true, if_true,
        List.getLastD_cons]
      exact ih
    · have hcb : ¬((c == '/') = true) := by simp [hc]
      obtain ⟨g, gs, hsp, hne⟩ := pySplit_long '/' (t ++ '/' :: l2)
        (List.mem_append_right t (List.mem_cons_self _ _))
      rw [lastSegment, hsp] at ih
      simp only [pySplit, List.append_eq, if_neg hcb, hsp]
      cases gs with
      | nil => exact absurd rfl hne
      | cons g' gs' =>
        rw [List.getLastD_cons, List.getLastD_cons]
        rw [List.getLastD_cons, List.getLastD_cons] at ih
        exact ih

theorem lastSegment_no_sep (s : Str) (h : '/' ∉ s) : lastSegment s = s := by
  rw [lastSegment, pySplit_no_sep '/' s h]
  rfl

/-! ## Branch lemmas for the discovery callback -/

theorem message_received_zone (base rel : Str)
    (h : (TOPIC_PRIO_INPUTS.isPrefixOf rel || TOPIC_VRIO_INPUTS.isPrefixOf rel) = true) :
    message_received base ((base ++ "/".data) ++ rel) = some
      { sensor_type := SENSOR_TYPE_ZONE_INPUT
        zone_id := lastSegment rel
        name := get_default_sensor_name SENSOR_TYPE_ZONE_INPUT (lastSegment rel)
        device_class := get_default_device_class (lastSegment rel) ((base ++ "/".data) ++ rel)
        enabled := true
        topic := (base ++ "/".data) ++ rel
        is_prio := some (strContains TOPIC_PRIO_INPUTS rel)
        auto_enabled := false } := by
  simp only [message_received, replFirst_append]
  rw [if_pos h]

theorem message_received_output (base rel : Str)
    (h1 : (TOPIC_PRIO_INPUTS.isPrefixOf rel || TOPIC_VRIO_INPUTS.isPrefixOf rel) = false)
    (h2 : (TOPIC_PRIO_OUTPUTS.isPrefixOf rel || TOPIC_VRIO_OUTPUTS.isPrefixOf rel) = true) :
    message_received base ((base ++ "/".data) ++ rel) = some
      { sensor_type := SENSOR_TYPE_OUTPUT
        zone_id := lastSegment rel
        name := get_default_sensor_name SENSOR_TYPE_OUTPUT (lastSegment rel)
        device_class := "None".data
        enabled := true
        topic := (base ++ "/".data) ++ rel
        is_prio := some (strContains TOPIC_PRIO_OUTPUTS rel)
        auto_enabled := false } := by
  simp only [message_received, replFirst_append]
  rw [if_neg (by simp [h1]), if_pos h2]

theorem any_matches_of_mem (ps : List Pattern) (p : Pattern) (t : Str)
    (hm : p ∈ ps) (h : Pattern.matches p t = true) :
    ps.any (fun q => Pattern.matches q t) = true :=
  List.any_eq_true.2 ⟨p, hm, h⟩

/-! ## Claim C1 -/

theorem no_output_pattern_match_prio (base s : Str) :
    (topics_to_subscribe base false).any
      (fun p => Pattern.matches p
        (base ++ "/".data ++ TOPIC_PRIO_OUTPUTS ++ "/".data ++ s)) = false := by
  simp only [topics_to_subscribe, Bool.false_eq_true, if_false, List.append_nil,
    List.any_cons, List.any_nil, Pattern.matches, List.append_assoc,
    beq_append_left, isPrefixOf_append_left, Bool.or_false, Bool.or_eq_false_iff]
  exact ⟨⟨rfl, rfl⟩, ⟨rfl, rfl⟩, rfl, rfl, rfl, rfl⟩

theorem no_output_pattern_match_vrio (base s : Str) :
    (topics_to_subscribe base false).any
      (fun p => Pattern.matches p
        (base ++ "/".data ++ TOPIC_VRIO_OUTPUTS ++ "/".data ++ s)) = false := by
  simp only [topics_to_subscribe, Bool.false_eq_true, if_false, List.append_nil,
    List.any_cons, List.any_nil, Pattern.matches, List.append_assoc,
    beq_append_left, isPrefixOf_append_left, Bool.or_false, Bool.or_eq_false_iff]
  exact ⟨⟨rfl, rfl⟩, ⟨rfl, rfl⟩, rfl, rfl, rfl, rfl⟩

/-- C1: for every module base `base` and path segment `s`, the topic
`base/prio/outputs/s` (or the `vrio` form) produces no descriptor when
`isOutputsEnabled` is false (the outputs filters are not subscribed and no
other filter matches), and with `isOutputsEnabled` true it produces a
descriptor with kind Output, zone id `s` (the final path segment), default
device class `"None"` and `autoEnabled = false`. -/
theorem outputs_gated_classification (base s : Str) (hs : '/' ∉ s) :
    classify base (base ++ "/".data ++ TOPIC_PRIO_OUTPUTS ++ "/".data ++ s) false = none ∧
    classify base (base ++ "/".data ++ TOPIC_VRIO_OUTPUTS ++ "/".data ++ s) false = none ∧
    (∃ d, classify base (base ++ "/".data ++ TOPIC_PRIO_OUTPUTS ++ "/".data ++ s) true = some d ∧
      d.sensor_type = SENSOR_TYPE_OUTPUT ∧ d.zone_id = s ∧
      d.device_class = "None".data ∧ d.auto_enabled = false) ∧
    (∃ d, classify base (base ++ "/".data ++ TOPIC_VRIO_OUTPUTS ++ "/".data ++ s) true = some d ∧
      d.sensor_type = SENSOR_TYPE_OUTPUT ∧ d.zone_id = s ∧
      d.device_class = "None".data ∧ d.auto_enabled = false) := by
  refine ⟨?_, ?_, ?_, ?_⟩
  · rw [classify, if_neg (by rw [no_output_pattern_match_prio base s]; simp)]
  · rw [classify, if_neg (by rw [no_output_pattern_match_vrio base s]; simp)]
  · have hd := any_matches_of_mem
      (topics_to_subscribe base true)
      (Pattern.multi (base ++ "/".data ++ TOPIC_PRIO_OUTPUTS))
      (base ++ "/".data ++ TOPIC_PRIO_OUTPUTS ++ "/".data ++ s)
      (by simp [topics_to_subscribe])
      (by
        have h2 := isPrefixOf_self_append
          (base ++ "/".data ++ TOPIC_PRIO_OUTPUTS ++ "/".data) s
        simp [Pattern.matches, h2])
    rw [classify, if_pos hd]
    rw [show base ++ "/".data ++ TOPIC_PRIO_OUTPUTS ++ "/".data ++ s
        = (base ++ "/".data) ++ (TOPIC_PRIO_OUTPUTS ++ "/".data ++ s) by
      simp [List.append_assoc]]
    rw [message_received_output base (TOPIC_PRIO_OUTPUTS ++ "/".data ++ s) rfl rfl]
    exact ⟨_, rfl, rfl, lastSegment_append_sep TOPIC_PRIO_OUTPUTS s hs, rfl, rfl⟩
  · have hd := any_matches_of_mem
      (topics_to_subscribe base true)
      (Pattern.multi (base ++ "/".data ++ TOPIC_VRIO_OUTPUTS))
      (base ++ "/".data ++ TOPIC_VRIO_OUTPUTS ++ "/".data ++ s)
      (by simp [topics_to_subscribe])
      (by
        have h2 := isPrefixOf_self_append
          (base ++ "/".data ++ TOPIC_VRIO_OUTPUTS ++ "/".data) s
        simp [Pattern.matches, h2])
    rw [classify, if_pos hd]
    rw [show base ++ "/".data ++ TOPIC_VRIO_OUTPUTS ++ "/".data ++ s
        = (base ++ "/".data) ++ (TOPIC_VRIO_OUTPUTS ++ "/".data ++ s) by
      simp [List.append_assoc]]
    rw [message_received_output base (TOPIC_VRIO_OUTPUTS ++ "/".data ++ s) rfl rfl]
    exact ⟨_, rfl, rfl, lastSegment_append_sep TOPIC_VRIO_OUTPUTS s hs, rfl, rfl⟩

/-! ## Claim C5 -/

/-- C5 is refuted as stated: the bare branch topic `m/prio/inputs/read`
(delivered, because the MQTT filter `m/prio/inputs/read/#` also matches its
parent level) is classified by rule 1 as a ZoneInput with zone id `"read"`,
even though its module-relative part does not start with
`prio/inputs/read/` (with the trailing slash) in either the prio or the
vrio form — the source checks `startswith("prio/inputs/read")` without the
slash. -/
theorem zone_rule_trailing_slash_counterexample :
    (∃ d, classify "m".data "m/prio/inputs/read".data false = some d ∧
      d.sensor_type = SENSOR_TYPE_ZONE_INPUT ∧ d.zone_id = "read".data) ∧
    "prio/inputs/read/".data.isPrefixOf
      (replFirst ("m".data ++ "/".data) "m/prio/inputs/read".data) = false ∧
    "vrio/inputs/read/".data.isPrefixOf
      (replFirst ("m".data ++ "/".data) "m/prio/inputs/read".data) = false :=
  ⟨⟨_, rfl, rfl, rfl⟩, rfl, rfl⟩

theorem strContains_prio_in_vrio_rel (s : Str) (hs : '/' ∉ s) :
    strContains TOPIC_PRIO_INPUTS ((TOPIC_VRIO_INPUTS ++ "/".data) ++ s) = false := by
  have hshift : strContains TOPIC_PRIO_INPUTS ((TOPIC_VRIO_INPUTS ++ "/".data) ++ s)
      = strContains TOPIC_PRIO_INPUTS s := rfl
  rw [hshift]
  exact strContains_eq_false_of_slash TOPIC_PRIO_INPUTS (by decide) s hs

/-- C5 (amended): a topic under the module base whose relative part starts
with `prio/inputs/read` or `vrio/inputs/read` — the trailing slash is NOT
required, the bare branch topic also matches — is classified by rule 1:
kind ZoneInput, zone id = final path segment, isPriority true for the prio
form and false for the vrio form, device class from the zone heuristic,
autoEnabled false; conversely every topic classified as ZoneInput has a
relative part starting with one of those two slash-less prefixes.  In
particular `classify("selfmon/vmod.010aa1",
"selfmon/vmod.010aa1/prio/inputs/read/7", false)` yields zone id `"7"`,
isPriority true and device class `"door"`. -/
theorem zone_input_rule :
    (∀ (base s : Str) (flag : Bool), '/' ∉ s →
      ∃ d, classify base ((base ++ "/".data) ++ (TOPIC_PRIO_INPUTS ++ "/".data ++ s))
          flag = some d ∧
        d.sensor_type = SENSOR_TYPE_ZONE_INPUT ∧ d.zone_id = s ∧
        d.is_prio = some true ∧
        d.device_class = get_default_device_class s [] ∧
        d.auto_enabled = false) ∧
    (∀ (base s : Str) (flag : Bool), '/' ∉ s →
      ∃ d, classify base ((base ++ "/".data) ++ (TOPIC_VRIO_INPUTS ++ "/".data ++ s))
          flag = some d ∧
        d.sensor_type = SENSOR_TYPE_ZONE_INPUT ∧ d.zone_id = s ∧
        d.is_prio = some false ∧
        d.device_class = get_default_device_class s [] ∧
        d.auto_enabled = false) ∧
    (∀ (base topic : Str) (flag : Bool) (d : SensorDescriptor),
      classify base topic flag = some d →
      d.sensor_type = SENSOR_TYPE_ZONE_INPUT →
      (TOPIC_PRIO_INPUTS.isPrefixOf (replFirst (base ++ "/".data) topic)
        || TOPIC_VRIO_INPUTS.isPrefixOf (replFirst (base ++ "/".data) topic)) = true) ∧
    (∃ d, classify "selfmon/vmod.010aa1".data
        "selfmon/vmod.010aa1/prio/inputs/read/7".data false = some d ∧
      d.sensor_type = SENSOR_TYPE_ZONE_INPUT ∧ d.zone_id = "7".data ∧
      d.is_prio = some true ∧ d.device_class = "door".data) := by
  refine ⟨?_, ?_, ?_, ⟨_, rfl, rfl, rfl, rfl, rfl⟩⟩
  · intro base s flag hs
    have hd := any_matches_of_mem
      (topics_to_subscribe base flag)
      (Pattern.multi (base ++ "/".data ++ TOPIC_PRIO_INPUTS))
      ((base ++ "/".data) ++ (TOPIC_PRIO_INPUTS ++ "/".data ++ s))
      (by cases flag <;> simp [topics_to_subscribe])
      (by
        have h2 : ((base ++ "/".data ++ TOPIC_PRIO_INPUTS) ++ "/".data).isPrefixOf
            ((base ++ "/".data) ++ (TOPIC_PRIO_INPUTS ++ "/".data ++ s)) = true := by
          have := isPrefixOf_self_append (base ++ "/".data ++ TOPIC_PRIO_INPUTS ++ "/".data) s
          simpa [List.append_assoc] using this
        simp [Pattern.matches, h2])
    rw [classify, if_pos hd,
      message_received_zone base (TOPIC_PRIO_INPUTS ++ "/".data ++ s) rfl]
    have hz : lastSegment (TOPIC_PRIO_INPUTS ++ "/".data ++ s) = s :=
      lastSegment_append_sep TOPIC_PRIO_INPUTS s hs
    refine ⟨_, rfl, rfl, hz, rfl, ?_, rfl⟩
    rw [hz]
    rfl
  · intro base s flag hs
    have hd := any_matches_of_mem
      (topics_to_subscribe base flag)
      (Pattern.multi (base ++ "/".data ++ TOPIC_VRIO_INPUTS))
      ((base ++ "/".data) ++ (TOPIC_VRIO_INPUTS ++ "/".data ++ s))
      (by cases flag <;> simp [topics_to_subscribe])
      (by
        have h2 : ((base ++ "/".data ++ TOPIC_VRIO_INPUTS) ++ "/".data).isPrefixOf
            ((base ++ "/".data) ++ (TOPIC_VRIO_INPUTS ++ "/".data ++ s)) = true := by
          have := isPrefixOf_self_append (base ++ "/".data ++ TOPIC_VRIO_INPUTS ++ "/".data) s
          simpa [List.append_assoc] using this
        simp [Pattern.matches, h2])
    rw [classify, if_pos hd,
      message_received_zone base (TOPIC_VRIO_INPUTS ++ "/".data ++ s) rfl]
    have hz : lastSegment (TOPIC_VRIO_INPUTS ++ "/".data ++ s) = s :=
      lastSegment_append_sep TOPIC_VRIO_INPUTS s hs
    have hp : strContains TOPIC_PRIO_INPUTS (TOPIC_VRIO_INPUTS ++ "/".data ++ s) = false :=
      strContains_prio_in_vrio_rel s hs
    refine ⟨_, rfl, rfl, hz, ?_, ?_, rfl⟩
    · rw [hp]
    · rw [hz]
      rfl
  · intro base topic flag d hc htype
    rw [classify] at hc
    split at hc
    · simp only [message_received] at hc
      repeat' split at hc
      all_goals first
        | assumption
        | exact Option.noConfusion hc
        | (injection hc with hd; subst hd;
           exact absurd (show SENSOR_TYPE_OUTPUT = SENSOR_TYPE_ZONE_INPUT from htype)
             (by decide))
        | (injection hc with hd; subst hd;
           exact absurd (show SENSOR_TYPE_TEMPERATURE = SENSOR_TYPE_ZONE_INPUT from htype)
             (by decide))
        | (injection hc with hd; subst hd;
           exact absurd (show SENSOR_TYPE_VKP_LINE = SENSOR_TYPE_ZONE_INPUT from htype)
             (by decide))
        | (injection hc with hd; subst hd;
           exact absurd (show SENSOR_TYPE_VERSION = SENSOR_TYPE_ZONE_INPUT from htype)
             (by decide))
    · exact Option.noConfusion hc

/-- Witness for the amended C5 at `base = "m"`, `s = "7"`. -/
theorem zone_input_rule_witness :
    ∃ d, classify "m".data
        (("m".data ++ "/".data) ++ (TOPIC_PRIO_INPUTS ++ "/".data ++ "7".data))
        false = some d ∧
      d.sensor_type = SENSOR_TYPE_ZONE_INPUT ∧ d.zone_id = "7".data ∧
      d.is_prio = some true ∧
      d.device_class = get_default_device_class "7".data [] ∧
      d.auto_enabled = false :=
  zone_input_rule.1 "m".data "7".data false (by decide)

/-! ## Claim C9 -/

/-- C9: the zone-entity unique id is computed only from the module path's
suffix and the configured zone id, so the prio and vrio descriptors for
the same final path segment — distinct topics — receive identical unique
ids. -/
theorem zone_unique_id_prio_vrio_collision (base s : Str) (hs : '/' ∉ s) :
    ∃ d1 d2,
      message_received base
        ((base ++ "/".data) ++ (TOPIC_PRIO_INPUTS ++ "/".data ++ s)) = some d1 ∧
      message_received base
        ((base ++ "/".data) ++ (TOPIC_VRIO_INPUTS ++ "/".data ++ s)) = some d2 ∧
      d1.topic ≠ d2.topic ∧
      zone_unique_id base d1.zone_id = zone_unique_id base d2.zone_id := by
  rw [message_received_zone base (TOPIC_PRIO_INPUTS ++ "/".data ++ s) rfl,
    message_received_zone base (TOPIC_VRIO_INPUTS ++ "/".data ++ s) rfl]
  refine ⟨_, _, rfl, rfl, ?_, ?_⟩
  · intro h
    have htail := List.append_cancel_left h
    have h0 : ('p' : Char) = 'v' := congrArg (fun l => l.headD ' ') htail
    exact absurd h0 (by decide)
  · have hz1 : lastSegment (TOPIC_PRIO_INPUTS ++ "/".data ++ s) = s :=
      lastSegment_append_sep TOPIC_PRIO_INPUTS s hs
    have hz2 : lastSegment (TOPIC_VRIO_INPUTS ++ "/".data ++ s) = s :=
      lastSegment_append_sep TOPIC_VRIO_INPUTS s hs
    rw [hz1, hz2]

/-- Witness for C9 at `base = "selfmon/vmod.010aa1"`, `s = "7"`. -/
theorem zone_unique_id_prio_vrio_collision_witness :
    ∃ d1 d2,
      message_received "selfmon/vmod.010aa1".data
        (("selfmon/vmod.010aa1".data ++ "/".data)
          ++ (TOPIC_PRIO_INPUTS ++ "/".data ++ "7".data)) = some d1 ∧
      message_received "selfmon/vmod.010aa1".data
        (("selfmon/vmod.010aa1".data ++ "/".data)
          ++ (TOPIC_VRIO_INPUTS ++ "/".data ++ "7".data)) = some d2 ∧
      d1.topic ≠ d2.topic ∧
      zone_unique_id "selfmon/vmod.010aa1".data d1.zone_id
        = zone_unique_id "selfmon/vmod.010aa1".data d2.zone_id :=
  zone_unique_id_prio_vrio_collision "selfmon/vmod.010aa1".data "7".data (by decide)

/-! ## Claim C3 -/

theorem exact_match_prefixed (pre X topic : Str)
    (h : Pattern.matches (.exact (pre ++ X)) topic = true) :
    pre.isPrefixOf topic = true := by
  simp only [Pattern.matches, beq_iff_eq] at h
  rw [h]
  exact isPrefixOf_self_append pre X

theorem multi_match_prefixed (pre X topic : Str)
    (h : Pattern.matches (.multi (pre ++ X)) topic = true) :
    pre.isPrefixOf topic = true := by
  simp only [Pattern.matches, Bool.or_eq_true, beq_iff_eq] at h
  rcases h with h | h
  · rw [h]
    exact isPrefixOf_self_append pre X
  · rw [List.append_assoc] at h
    exact isPrefixOf_of_append_isPrefixOf pre _ topic h

/-- C3: a full topic that does not begin with `moduleBase ++ "/"` matches
none of the discovery session's subscription filters (all of which are
scoped under the module base), so it is never delivered to the callback
and classification produces no descriptor, for either value of
`isOutputsEnabled`. -/
theorem foreign_topic_ignored (base topic : Str) (flag : Bool)
    (h : (base ++ "/".data).isPrefixOf topic = false) :
    classify base topic flag = none := by
  rw [classify, if_neg]
  intro hany
  obtain ⟨p, hmem, hmatch⟩ := List.any_eq_true.1 hany
  have hpre : (base ++ "/".data).isPrefixOf topic = true := by
    cases flag with
    | false =>
      simp only [topics_to_subscribe, Bool.false_eq_true, if_false,
        List.append_nil, List.mem_cons, List.not_mem_nil, or_false] at hmem
      rcases hmem with rfl | rfl | rfl | rfl | rfl | rfl
      · exact multi_match_prefixed _ _ _ hmatch
      · exact multi_match_prefixed _ _ _ hmatch
      · exact exact_match_prefixed _ _ _ hmatch
      · exact exact_match_prefixed _ _ _ hmatch
      · exact exact_match_prefixed _ _ _ hmatch
      · exact exact_match_prefixed _ _ _ hmatch
    | true =>
      simp only [topics_to_subscribe, if_true, List.mem_append, List.mem_cons,
        List.not_mem_nil, or_false] at hmem
      rcases hmem with (rfl | rfl | rfl | rfl | rfl | rfl) | (rfl | rfl)
      · exact multi_match_prefixed _ _ _ hmatch
      · exact multi_match_prefixed _ _ _ hmatch
      · exact exact_match_prefixed _ _ _ hmatch
      · exact exact_match_prefixed _ _ _ hmatch
      · exact exact_match_prefixed _ _ _ hmatch
      · exact exact_match_prefixed _ _ _ hmatch
      · exact multi_match_prefixed _ _ _ hmatch
      · exact multi_match_prefixed _ _ _ hmatch
  rw [h] at hpre
  cases hpre

/-- Witness for C3 at `base = "selfmon/vmod.a"`,
`fullTopic = "other/module/topic"`. -/
theorem foreign_topic_ignored_witness :
    classify "selfmon/vmod.a".data "other/module/topic".data false = none :=
  foreign_topic_ignored "selfmon/vmod.a".data "other/module/topic".data false
    (by decide)

/-! ## Claim C10 -/

/-- C10: every dictionary entry the sensor-discovery callback stores is
created with `enabled = true`, in all five branches — including the
zone-input and output branches, whose `auto_enabled` flag is false. -/
theorem discovered_descriptors_enabled (module_path topic : Str)
    (d : SensorDescriptor) (h : message_received module_path topic = some d) :
    d.enabled = true := by
  simp only [message_received] at h
  repeat' split at h
  all_goals first
    | (cases h; rfl)
    | exact Option.noConfusion h

/-- Witness for C10 at `module_path = "m"`, `topic = "m/version"`. -/
theorem discovered_descriptors_enabled_witness :
    ({ sensor_type := SENSOR_TYPE_VERSION
       zone_id := "version".data
       name := "Module Version".data
       device_class := "None".data
       enabled := true
       topic := "m/version".data
       is_prio := none
       auto_enabled := true } : SensorDescriptor).enabled = true :=
  discovered_descriptors_enabled "m".data "m/version".data _ (by rfl)

/-! ## Claim C4 -/

/-- C4: the default device class is a function of the numeric zone id
modulo 10 only (non-numeric ids behave as 0), given by the spec's digit
table; consequently ids differing by exactly 10 get the same class. -/
theorem device_class_mod10 :
    (∀ zone_id topic : Str, get_default_device_class zone_id topic =
      specDeviceClass (if pyIsDigit zone_id then pyInt zone_id else 0)) ∧
    (∀ s t topic topic' : Str, pyIsDigit s = true → pyIsDigit t = true →
      pyInt t = pyInt s + 10 →
      get_default_device_class s topic = get_default_device_class t topic') := by
  have key : ∀ n : Nat,
      (if n % 10 = 1 ∨ n % 10 = 7 then "door".data
       else if n % 10 = 2 ∨ n % 10 = 8 then "motion".data
       else if n % 10 = 4 ∨ n % 10 = 6 then "smoke".data
       else if n % 10 = 3 ∨ n % 10 = 5 then "safety".data
       else "None".data) = specDeviceClass n := by
    intro n
    have h10 : n % 10 < 10 := Nat.mod_lt _ (by decide)
    rw [specDeviceClass]
    rcases Nat.lt_iff_le_pred (by decide) |>.1 h10 with h9
    interval_cases h : n % 10 <;> simp
  have unfolded : ∀ zone_id topic : Str, get_default_device_class zone_id topic =
      specDeviceClass (if pyIsDigit zone_id then pyInt zone_id else 0) := by
    intro zone_id topic
    rw [get_default_device_class]
    exact key _
  refine ⟨unfolded, ?_⟩
  intro s t topic topic' hs ht hst
  rw [unfolded, unfolded, if_pos hs, if_pos ht, hst]
  show specDeviceClass (pyInt s) = specDeviceClass (pyInt s + 10)
  rw [specDeviceClass, specDeviceClass, Nat.add_mod_right]

/-- Witness for C4 at zone ids `"7"` and `"17"`. -/
theorem device_class_mod10_witness :
    get_default_device_class "7".data [] = get_default_device_class "17".data [] :=
  device_class_mod10.2 "7".data "17".data [] [] (by decide) (by decide) (by decide)

/-! ## Claim C2 -/

/-- C2 (code-bug evidence): evaluated at a concrete module base with
outputs disabled, the normal exit path of the discovery session does leave
zero active subscriptions, but a cancellation during the discovery window
skips the unsubscribe loop and leaves all six subscriptions active. -/
theorem discover_cancelled_leaks_subscriptions :
    discover_active_subscriptions "selfmon/vmod.010aa1".data false .normal = [] ∧
    (discover_active_subscriptions "selfmon/vmod.010aa1".data false
      .cancelled).length = 6 := by
  constructor
  · decide
  · decide

/-! ## Claim C6 -/

/-- C6: the zone-input payload decoder maps `"OPEN"` to on and `"CLOSED"`
to off (each publishing a state update); any other payload leaves the
previous state unchanged and publishes nothing; the payload sequence
`"OPEN"`, `"CLOSED"`, `"garbage"` therefore yields states on, off, off. -/
theorem zone_payload_decoder :
    (∀ (st : Option Bool) (p : Str), (p == PAYLOAD_OPEN) = false →
      (p == PAYLOAD_CLOSED) = false → zone_message_received st p = (st, false)) ∧
    (∀ st : Option Bool,
      zone_message_received st PAYLOAD_OPEN = (some true, true) ∧
      zone_message_received st PAYLOAD_CLOSED = (some false, true)) ∧
    run_zone none ["OPEN".data, "CLOSED".data, "garbage".data] =
      [some true, some false, some false] := by
  refine ⟨?_, ?_, rfl⟩
  · intro st p h1 h2
    rw [zone_message_received, if_neg (by simp [h1]), if_neg (by simp [h2])]
  · intro st
    constructor
    · rfl
    · rfl

/-- Witness for C6 at state off and payload `"garbage"`. -/
theorem zone_payload_decoder_witness :
    zone_message_received (some false) "garbage".data = (some false, false) :=
  zone_payload_decoder.1 (some false) "garbage".data (by decide) (by decide)

/-! ## Claim C7 -/

/-- C7: the temperature payload decoder sets the state to the parsed
number when the payload parses as a float (publishing an update), and on a
parse failure leaves the prior state unchanged and publishes nothing; the
payload sequence `"21.5"`, `"abc"` therefore yields states 21.5, 21.5. -/
theorem temperature_payload_decoder :
    (∀ (st : Option ℚ) (p : Str) (v : ℚ), pyFloat? p = some v →
      temperature_message_received st p = (some v, true)) ∧
    (∀ (st : Option ℚ) (p : Str), pyFloat? p = none →
      temperature_message_received st p = (st, false)) ∧
    run_temperature none ["21.5".data, "abc".data] =
      [some (21.5 : ℚ), some (21.5 : ℚ)] := by
  refine ⟨?_, ?_, ?_⟩
  · intro st p v h
    simp only [temperature_message_received, h]
  · intro st p h
    simp only [temperature_message_received, h]
  · have h215 : pyFloat? "21.5".data = some (21.5 : ℚ) := by
      show some ((1 : ℚ) * ((21 : ℚ) + (5 : ℚ) / (10 : ℚ) ^ 1)) = some (21.5 : ℚ)
      norm_num
    have habc : pyFloat? "abc".data = none := rfl
    simp only [run_temperature, temperature_message_received, h215, habc]

/-- Witness for C7 at state 21.5 and payload `"abc"`. -/
theorem temperature_payload_decoder_witness :
    temperature_message_received (some (21.5 : ℚ)) "abc".data =
      (some (21.5 : ℚ), false) :=
  temperature_payload_decoder.2.1 (some (21.5 : ℚ)) "abc".data rfl

/-! ## Claim C8 -/

theorem getLast_not_newline_of_hex (t : Str) (hall : t.all isHexDigitChar = true) :
    (t.getLast? == some '\n') = false := by
  cases hgl : t.getLast? with
  | none => rfl
  | some c =>
    rw [beq_eq_false_iff_ne]
    intro hsome
    have hc : c = '\n' := Option.some.inj hsome
    have hne : t ≠ [] := by
      intro h0
      rw [h0] at hgl
      exact Option.noConfusion hgl
    have hcl : c = t.getLast hne := by
      have h3 := List.getLast?_eq_getLast t hne
      rw [hgl] at h3
      exact Option.some.inj h3
    have hmem : c ∈ t := by
      rw [hcl]
      exact List.getLast_mem hne
    have hhex := (List.all_eq_true.1 hall) c hmem
    rw [hc] at hhex
    exact absurd hhex (by decide)

theorem matches_module_path_re_iff (s : Str) :
    matches_module_path_re s = true ↔
    ∃ t : Str, (s = "selfmon/vmod.".data ++ t ∨
        s = "selfmon/vmod.".data ++ t ++ ['\n']) ∧ t ≠ [] ∧
      t.all isHexDigitChar = true := by
  constructor
  · intro h
    simp only [matches_module_path_re, Bool.and_eq_true] at h
    obtain ⟨h1, h2⟩ := h
    obtain ⟨u, hu⟩ := List.isPrefixOf_iff_prefix.1 h1
    have hd : s.drop "selfmon/vmod.".data.length = u := by
      rw [← hu]
      exact List.drop_left _ _
    rw [hd] at h2
    by_cases hc : (u.getLast? == some '\n') = true
    · rw [if_pos hc] at h2
      simp only [Bool.and_eq_true, Bool.not_eq_eq_eq_not, Bool.not_false] at h2
      obtain ⟨hne, hall⟩ := h2
      have hu0 : u ≠ [] := by
        intro h0
        rw [h0] at hc
        exact absurd hc (by decide)
      have hsplit := List.dropLast_append_getLast hu0
      have hlast : u.getLast hu0 = '\n' := by
        have h3 := List.getLast?_eq_getLast u hu0
        rw [beq_iff_eq] at hc
        rw [hc] at h3
        exact (Option.some.inj h3).symm
      refine ⟨u.dropLast, Or.inr ?_, by simpa [List.isEmpty_iff] using hne, hall⟩
      rw [List.append_assoc, ← hu]
      congr 1
      rw [← hlast]
      exact hsplit.symm
    · rw [if_neg hc] at h2
      simp only [Bool.and_eq_true, Bool.not_eq_eq_eq_not, Bool.not_false] at h2
      obtain ⟨hne, hall⟩ := h2
      exact ⟨u, Or.inl hu.symm, by simpa [List.isEmpty_iff] using hne, hall⟩
  · rintro ⟨t, hor, hne, hall⟩
    rcases hor with rfl | rfl
    · simp only [matches_module_path_re, Bool.and_eq_true]
      refine ⟨isPrefixOf_self_append _ t, ?_⟩
      rw [List.drop_left,
        if_neg (by rw [getLast_not_newline_of_hex t hall]; simp)]
      simp [List.isEmpty_iff, hne, hall]
    · have hassoc : "selfmon/vmod.".data ++ t ++ ['\n']
          = "selfmon/vmod.".data ++ (t ++ ['\n']) := List.append_assoc _ _ _
      rw [hassoc]
      simp only [matches_module_path_re, Bool.and_eq_true]
      refine ⟨isPrefixOf_self_append _ (t ++ ['\n']), ?_⟩
      rw [List.drop_left, if_pos (by rw [List.getLast?_concat]; rfl),
        List.dropLast_concat]
      simp [List.isEmpty_iff, hne, hall]

/-- C8 is refuted as stated: the raw input `"selfmon/vmod.a\n/"` normalises
(strip of surrounding whitespace, then rstrip of slashes) to
`"selfmon/vmod.a\n"`, which the source's regex accepts — Python `$` also
matches just before a newline that ends the string — so the flow proceeds
with that path, although the normalised value is not `selfmon/vmod.`
followed only by hex digits. -/
theorem manual_entry_newline_counterexample :
    async_step_manual_entry ("selfmon/vmod.a".data ++ ['\n', '/'])
      = .accepted ("selfmon/vmod.a".data ++ ['\n']) ∧
    ¬ ∃ t : Str, ("selfmon/vmod.a".data ++ ['\n']) = "selfmon/vmod.".data ++ t ∧
        t ≠ [] ∧ t.all isHexDigitChar = true := by
  constructor
  · rfl
  · rintro ⟨t, ht, hne, hall⟩
    have ht2 : "selfmon/vmod.".data ++ ['a', '\n'] = "selfmon/vmod.".data ++ t := ht
    have h3 : (['a', '\n'] : Str) = t := List.append_cancel_left ht2
    rw [← h3] at hall
    exact absurd hall (by decide)

/-- C8 (amended): manual module-path entry accepts its input exactly when,
after stripping surrounding whitespace and trailing slashes, the value is
`selfmon/vmod.` followed by one or more case-insensitive hex digits,
optionally followed by a single trailing newline (Python `re`'s `$` also
matches just before a final newline); any other input is answered with the
`invalid_path` validation error (the form is shown again, no crash). -/
theorem manual_entry_validation (input : Str) :
    ((∃ t : Str, (pyRstripSlashes (pyStrip input) = "selfmon/vmod.".data ++ t ∨
        pyRstripSlashes (pyStrip input) = "selfmon/vmod.".data ++ t ++ ['\n']) ∧
        t ≠ [] ∧ t.all isHexDigitChar = true) →
      async_step_manual_entry input = .accepted (pyRstripSlashes (pyStrip input))) ∧
    ((¬ ∃ t : Str, (pyRstripSlashes (pyStrip input) = "selfmon/vmod.".data ++ t ∨
        pyRstripSlashes (pyStrip input) = "selfmon/vmod.".data ++ t ++ ['\n']) ∧
        t ≠ [] ∧ t.all isHexDigitChar = true) →
      async_step_manual_entry input = .invalid_path) := by
  constructor
  · intro hex
    rw [async_step_manual_entry,
      if_pos ((matches_module_path_re_iff _).2 hex)]
  · intro hnex
    rw [async_step_manual_entry, if_neg]
    intro hm
    exact hnex ((matches_module_path_re_iff _).1 hm)

/-- Witness for the amended C8 at input `"  selfmon/vmod.010aa1/ "`. -/
theorem manual_entry_validation_witness :
    async_step_manual_entry "  selfmon/vmod.010aa1/ ".data =
      .accepted (pyRstripSlashes (pyStrip "  selfmon/vmod.010aa1/ ".data)) :=
  (manual_entry_validation "  selfmon/vmod.010aa1/ ".data).1
    ⟨"010aa1".data, Or.inl (by decide), by decide, by decide⟩

/-- Witness for C1 at `base = "selfmon/vmod.010aa1"`, `s = "3"`. -/
theorem outputs_gated_classification_witness :
    classify "selfmon/vmod.010aa1".data
      ("selfmon/vmod.010aa1".data ++ "/".data ++ TOPIC_PRIO_OUTPUTS ++ "/".data ++ "3".data)
      false = none ∧
    (∃ d, classify "selfmon/vmod.010aa1".data
      ("selfmon/vmod.010aa1".data ++ "/".data ++ TOPIC_PRIO_OUTPUTS ++ "/".data ++ "3".data)
      true = some d ∧
      d.sensor_type = SENSOR_TYPE_OUTPUT ∧ d.zone_id = "3".data ∧
      d.device_class = "None".data ∧ d.auto_enabled = false) := by
  have h := outputs_gated_classification "selfmon/vmod.010aa1".data "3".data (by decide)
  exact ⟨h.1, h.2.2.1⟩

end Selfmon
